import Mathlib

/-!
Shallow embedding of the bounded concurrent OCR job-dispatch layer of
rezapace/GO-OCR (src/main.go) and proofs about its claimed properties.

The embedding models:
 - the Result type `OCRResponse` (src/main.go lines 37-40);
 - the text-normalization performed on a successful engine call
   (lines 252-258), including a model of Go strings.TrimSpace;
 - the per-job processing function `processOCRRequest` (lines 206-271),
   with its temp-file naming (line 215), the deferred cleanup
   (lines 226-230) as an explicit filesystem-event trace, and the
   select between the engine goroutine result and the 30s context
   deadline (lines 232-270) as a function of the call duration;
 - the buffered-channel discipline (result channel and reply channel,
   both capacity 1) as an explicit channel state;
 - the upload handler pipeline `uploadHandler` (lines 761-857) as a
   sequential outcome function that also records whether a reply
   channel was created and whether a job entered the queue;
 - the extension gate `isValidImageType` (lines 859-869) together with
   models of Go filepath.Ext (unix path separator) and strings.ToLower
   restricted to ASCII (the six comparison targets are ASCII);
 - the RWMutex read-lock discipline around the engine call
   (lines 239-242) as a two-worker interleaving state machine;
 - the optimized file write `writeImageFileOptimized` (lines 274-295)
   with its bytes.Buffer path and pooled-buffer acquisition.
-/

namespace GoOCR

/-- Result type: src/main.go lines 37-40. The Go `error` is modelled as
an optional message string, `none` meaning the nil error. -/
structure OCRResponse where
  Text : String
  Err  : Option String
deriving DecidableEq, Repr

/-- Model of Go unicode.IsSpace, the predicate used by strings.TrimSpace:
tab, LF, VT, FF, CR, space, NEL, NBSP, plus the Unicode White_Space
code points above Latin-1. -/
def goIsSpace (c : Char) : Bool :=
  decide (c.toNat = 9 ∨ c.toNat = 10 ∨ c.toNat = 11 ∨ c.toNat = 12 ∨
    c.toNat = 13 ∨ c.toNat = 32 ∨ c.toNat = 0x85 ∨ c.toNat = 0xA0 ∨
    c.toNat = 0x1680 ∨ (0x2000 ≤ c.toNat ∧ c.toNat ≤ 0x200A) ∨
    c.toNat = 0x2028 ∨ c.toNat = 0x2029 ∨ c.toNat = 0x202F ∨
    c.toNat = 0x205F ∨ c.toNat = 0x3000)

/-- Model of Go strings.TrimSpace: drop leading and trailing
whitespace characters. -/
def goTrimSpace (s : String) : String :=
  ⟨((s.data.dropWhile goIsSpace).reverse.dropWhile goIsSpace).reverse⟩

/-- The fixed sentinel substituted for empty extraction results
(src/main.go line 255). -/
def noTextSentinel : String := "No text detected in the image."

/-- Body of the engine-call goroutine in processOCRRequest
(src/main.go lines 239-259), as a function of the engine call outcome
`(text, err)`: the response value the goroutine sends into resultCh.
On error it wraps the message; on success it trims the text and
substitutes the sentinel for an empty result. -/
def engineCallResponse (text : String) (err : Option String) : OCRResponse :=
  match err with
  | some e => { Text := "", Err := some ("Tesseract OCR processing failed: " ++ e) }
  | none =>
      let t := goTrimSpace text
      let t2 := if t = "" then noTextSentinel else t
      { Text := t2, Err := none }

/-- Engine-call deadline in processOCRRequest: 30 * time.Second
(src/main.go line 233). -/
def engineCallTimeoutSecs : Nat := 30

/-- Dispatcher result wait: 35 * time.Second (src/main.go line 853). -/
def resultTimeoutSecs : Nat := 35

/-- Dispatcher admission wait: 5 * time.Second (src/main.go line 823). -/
def admissionTimeoutSecs : Nat := 5

/-- Worker pool size (src/main.go line 67). -/
def workerCount : Nat := 3

/-- Job queue capacity: make(chan OCRRequest, 10) (src/main.go line 66). -/
def queueCapacity : Nat := 10

/-- The select at src/main.go lines 262-270, as a function of the
engine call duration `d` (in seconds): if the goroutine result arrives
within the 30s context deadline it is returned, otherwise the fixed
timeout response is returned. -/
def processOCRSelect (d : Nat) (text : String) (err : Option String) : OCRResponse :=
  if d ≤ engineCallTimeoutSecs then engineCallResponse text err
  else { Text := "", Err := some "OCR processing timeout" }

/-- A Go buffered channel with its capacity and current buffer. -/
structure Chan (α : Type) where
  capacity : Nat
  buffer : List α
deriving Repr

/-- A send on a buffered channel completes without blocking exactly
when the buffer has room; `none` models a blocked sender. -/
def Chan.trySend {α : Type} (ch : Chan α) (x : α) : Option (Chan α) :=
  if ch.buffer.length < ch.capacity then
    some { ch with buffer := ch.buffer ++ [x] }
  else none

/-- Perform a sequence of sends, failing if any one of them blocks. -/
def Chan.sendAll {α : Type} (ch : Chan α) : List α → Option (Chan α)
  | [] => some ch
  | x :: xs =>
      match ch.trySend x with
      | none => none
      | some ch2 => ch2.sendAll xs

/-- resultCh := make(chan OCRResponse, 1) (src/main.go line 237). -/
def newResultCh : Chan OCRResponse := { capacity := 1, buffer := [] }

/-- responseCh := make(chan OCRResponse, 1) (src/main.go line 814):
the fresh per-job reply channel. -/
def newResponseCh : Chan OCRResponse := { capacity := 1, buffer := [] }

/-- Decimal digit to character, as printed by fmt `%d`. -/
def digitChar (d : Nat) : Char :=
  if d = 0 then '0' else if d = 1 then '1' else if d = 2 then '2'
  else if d = 3 then '3' else if d = 4 then '4' else if d = 5 then '5'
  else if d = 6 then '6' else if d = 7 then '7' else if d = 8 then '8'
  else '9'

/-- Inverse of digitChar on decimal digits. -/
def undigitChar (c : Char) : Nat := c.toNat - 48

/-- Decimal representation of a natural number, most significant digit
first, as printed by fmt `%d` for a nonnegative int64. -/
def natDecimalRepr (n : Nat) : List Char :=
  if n = 0 then ['0'] else ((Nat.digits 10 n).map digitChar).reverse

/-- Temp artifact name: fmt.Sprintf with the observed
time.Now().UnixNano() value and the original filename
(src/main.go line 215). -/
def tempFileName (nowUnixNano : Nat) (filename : String) : String :=
  "temp_" ++ String.mk (natDecimalRepr nowUnixNano) ++ "_" ++ filename

/-- One concurrently processing job, as observed inside
processOCRRequest: a distinguishing identity, the timestamp the job
reads from time.Now().UnixNano(), and the original filename. Two
distinct concurrent jobs are free to observe the same timestamp (the
clock has finite granularity and the workers run in parallel) and to
carry the same filename. -/
structure WorkerJob where
  jobId : Nat
  nowUnixNano : Nat
  filename : String
deriving DecidableEq, Repr

/-- The uniqueness property claimed for temp artifact names: any two
distinct concurrently processing jobs get distinct names. -/
def concTempNamesNeverCollide : Prop :=
  ∀ j1 j2 : WorkerJob, j1.jobId ≠ j2.jobId →
    tempFileName j1.nowUnixNano j1.filename ≠ tempFileName j2.nowUnixNano j2.filename

/-- Filesystem events performed by processOCRRequest on the temp
artifact; a remove with ok = false models os.Remove returning an
error, which the deferred cleanup only logs (src/main.go lines 226-230). -/
inductive FSEvent where
  | createTemp (name : String)
  | removeTemp (name : String) (ok : Bool)
deriving DecidableEq, Repr

/-- Whether an event is a deletion attempt of the named temp file. -/
def isRemoveOf (name : String) : FSEvent → Bool
  | .removeTemp n _ => n == name
  | .createTemp _ => false

/-- processOCRRequest (src/main.go lines 206-271), as a function of its
environment: whether ocrClient is non-nil, the observed UnixNano
timestamp, the filename, whether the temp write succeeds, whether the
deferred os.Remove succeeds, and the engine call duration and outcome.
Returns the response together with the trace of temp-file events.
The nil-client and write-failure paths return before the deferred
cleanup is registered; every later path (success, engine error,
engine-call timeout) runs the deferred remove exactly once. -/
def processOCRRequest (clientInit : Bool) (now : Nat) (filename : String)
    (writeOk : Bool) (removeOk : Bool)
    (d : Nat) (text : String) (err : Option String) :
    OCRResponse × List FSEvent :=
  if clientInit = false then
    ({ Text := "", Err := some "Tesseract OCR not initialized" }, [])
  else
    let tempFile := tempFileName now filename
    if writeOk = false then
      ({ Text := "", Err := some "failed to create temporary file" },
       [FSEvent.createTemp tempFile])
    else
      (processOCRSelect d text err,
       [FSEvent.createTemp tempFile, FSEvent.removeTemp tempFile removeOk])

/-- Body of the ocrWorker loop for one dequeued job (src/main.go
lines 199-204): compute the response and perform exactly one send of
it into the reply channel of the job. -/
def ocrWorkerJobSends (clientInit : Bool) (now : Nat) (filename : String)
    (writeOk removeOk : Bool) (d : Nat) (text : String) (err : Option String) :
    List OCRResponse :=
  [(processOCRRequest clientInit now filename writeOk removeOk d text err).1]

/-- Helper for goFilepathExt: scan the path from its last character
backwards; stop at a path separator, and at a dot return the suffix
from that dot on. `acc` holds the characters already passed, in
original order. -/
def extScanRev (acc : List Char) : List Char → List Char
  | [] => []
  | c :: rest =>
      if c = '/' then []
      else if c = '.' then c :: acc
      else extScanRev (c :: acc) rest

/-- Model of Go filepath.Ext on a unix host: the suffix beginning at
the final dot in the final path element, empty when there is none. -/
def goFilepathExt (path : String) : String :=
  ⟨extScanRev [] path.data.reverse⟩

/-- Model of Go strings.ToLower restricted to the characters whose
Unicode simple lowercase mapping is an ASCII character: the ASCII
uppercase letters, U+0130 (latin capital letter I with dot above,
whose simple mapping is the ASCII letter i), and U+212A (the Kelvin
sign, whose simple mapping is the ASCII letter k). Every other
character is left unchanged; under Unicode no other character
lowercases into ASCII, so this is extensionally adequate for the only
use in this program, comparison against the six ASCII extension
literals. -/
def goToLower (s : String) : String :=
  ⟨s.data.map fun c =>
    if 'A' ≤ c ∧ c ≤ 'Z' then Char.ofNat (c.toNat + 32)
    else if c.toNat = 0x130 then 'i'
    else if c.toNat = 0x212A then 'k'
    else c⟩

/-- The fixed array of accepted extensions (src/main.go line 862). -/
def validExts : List String := [".png", ".jpg", ".jpeg", ".gif", ".bmp", ".tiff"]

/-- isValidImageType (src/main.go lines 859-869): lowercase the
extension of the filename and scan the fixed array for a match. -/
def isValidImageType (filename : String) : Bool :=
  let ext := goToLower (goFilepathExt filename)
  validExts.any fun validExt => ext == validExt

/-- Observable resource events of the upload handler: creation of the
per-job reply channel (src/main.go line 814) and admission of the job
into the worker-pool queue (line 817). -/
inductive DispatchEvent where
  | responseChCreated
  | jobEnqueued
deriving DecidableEq, Repr

/-- The terminal outcome of one upload request (src/main.go
lines 761-857). -/
inductive UploadOutcome where
  | redirectHome
  | engineNotConfigured
  | badFormData
  | noFileUploaded
  | invalidImageType
  | readFailed
  | serviceBusy
  | ocrFailed (msg : String)
  | ocrSuccess (text filename : String)
  | processingTimeout
deriving DecidableEq, Repr

/-- HTTP status written for each outcome (src/main.go lines 761-857;
200 is the implicit default for the success JSON body). -/
def httpStatusOf : UploadOutcome → Nat
  | .redirectHome => 303
  | .engineNotConfigured => 503
  | .badFormData => 400
  | .noFileUploaded => 400
  | .invalidImageType => 400
  | .readFailed => 500
  | .serviceBusy => 503
  | .ocrFailed _ => 500
  | .ocrSuccess _ _ => 200
  | .processingTimeout => 408

/-- uploadHandler (src/main.go lines 761-857) as a sequential pipeline.
Parameters model the request and environment: the HTTP method, whether
tesseract was found and the client initialized, whether multipart
parsing and FormFile succeed, the uploaded filename, whether reading
the file body succeeds, whether the queue accepts the job within the
5-second admission window, and the worker response if one arrives
within the 35-second result window (`none` models its expiry).
The returned trace records reply-channel creation and queue admission,
in program order. -/
def uploadHandler (method : String) (tesseractFound clientInit : Bool)
    (parseOk fileOk : Bool) (filename : String) (readOk : Bool)
    (queueAdmitsWithinWindow : Bool) (workerResult : Option OCRResponse) :
    UploadOutcome × List DispatchEvent :=
  if method ≠ "POST" then (.redirectHome, [])
  else if tesseractFound = false ∨ clientInit = false then (.engineNotConfigured, [])
  else if parseOk = false then (.badFormData, [])
  else if fileOk = false then (.noFileUploaded, [])
  else if isValidImageType filename = false then (.invalidImageType, [])
  else if readOk = false then (.readFailed, [])
  else if queueAdmitsWithinWindow = false then
    (.serviceBusy, [.responseChCreated])
  else
    match workerResult with
    | some r =>
        match r.Err with
        | some e => (.ocrFailed e, [.responseChCreated, .jobEnqueued])
        | none => (.ocrSuccess r.Text filename, [.responseChCreated, .jobEnqueued])
    | none => (.processingTimeout, [.responseChCreated, .jobEnqueued])

/-- State of the global ocrMutex (sync.RWMutex, src/main.go line 44):
how many readers hold it and whether a writer holds it. No code in the
program ever takes the write side. -/
structure RWMutexState where
  readers : Nat
  writerHeld : Bool
deriving DecidableEq, Repr

/-- Where a worker stands with respect to the engine-call critical
section of processOCRRequest (src/main.go lines 240-242):
before ocrMutex.RLock, inside ocrClient.TextFromImageFile while
holding the read lock, or after ocrMutex.RUnlock. -/
inductive WPhase where
  | beforeLock
  | inEngineCall
  | done
deriving DecidableEq, Repr

/-- Interleaving state of two workers both processing a job, together
with the mutex. -/
structure EngineSyncState where
  mutex : RWMutexState
  w1 : WPhase
  w2 : WPhase
deriving DecidableEq, Repr

/-- Both workers are about to execute lines 240-242 and the mutex is
free. -/
def initialSync : EngineSyncState :=
  { mutex := { readers := 0, writerHeld := false },
    w1 := .beforeLock, w2 := .beforeLock }

/-- Interleaving semantics of the critical section: RLock proceeds
whenever no writer holds the mutex (Go RWMutex read-lock semantics;
readers never exclude each other), RUnlock releases one reader. -/
inductive SyncStep : EngineSyncState → EngineSyncState → Prop where
  | rlock1 (m : RWMutexState) (w : WPhase) (hw : m.writerHeld = false) :
      SyncStep ⟨m, .beforeLock, w⟩
        ⟨{ readers := m.readers + 1, writerHeld := m.writerHeld }, .inEngineCall, w⟩
  | runlock1 (m : RWMutexState) (w : WPhase) :
      SyncStep ⟨m, .inEngineCall, w⟩
        ⟨{ readers := m.readers - 1, writerHeld := m.writerHeld }, .done, w⟩
  | rlock2 (m : RWMutexState) (w : WPhase) (hw : m.writerHeld = false) :
      SyncStep ⟨m, w, .beforeLock⟩
        ⟨{ readers := m.readers + 1, writerHeld := m.writerHeld }, w, .inEngineCall⟩
  | runlock2 (m : RWMutexState) (w : WPhase) :
      SyncStep ⟨m, w, .inEngineCall⟩
        ⟨{ readers := m.readers - 1, writerHeld := m.writerHeld }, w, .done⟩

/-- States reachable from the initial state by interleaved execution. -/
def SyncReachable (s : EngineSyncState) : Prop :=
  Relation.ReflTransGen SyncStep initialSync s

/-- Number of workers currently inside ocrClient.TextFromImageFile. -/
def inEngineCallCount (s : EngineSyncState) : Nat :=
  (if s.w1 = .inEngineCall then 1 else 0) +
    (if s.w2 = .inEngineCall then 1 else 0)

/-- Model of bytes.Buffer: the bytes written so far. -/
structure BytesBuffer where
  contents : List UInt8
deriving DecidableEq, Repr

/-- bytes.Buffer.Write appends to the buffer. -/
def BytesBuffer.write (b : BytesBuffer) (d : List UInt8) : BytesBuffer :=
  { contents := b.contents ++ d }

/-- bytes.Buffer.WriteTo writes the whole buffer to the destination
file and drains the buffer. -/
def BytesBuffer.writeTo (b : BytesBuffer) (file : List UInt8) :
    List UInt8 × BytesBuffer :=
  (file ++ b.contents, { contents := [] })

/-- sync.Pool Get: take a pooled buffer when one is available,
otherwise the New function yields a fresh empty byte slice
(src/main.go lines 56-60). -/
def bufferPoolGet (pool : List (List UInt8)) :
    List UInt8 × List (List UInt8) :=
  match pool with
  | [] => ([], [])
  | b :: rest => (b, rest)

/-- sync.Pool Put returns a buffer to the pool. -/
def bufferPoolPut (pool : List (List UInt8)) (b : List UInt8) :
    List (List UInt8) :=
  pool ++ [b]

/-- writeImageFileOptimized (src/main.go lines 274-295): os.Create
truncates the file; for payloads over 32 KiB a pooled buffer is
acquired (and put back truncated to length zero, untouched by the
copy) and the data goes through a fresh bytes.Buffer into the file;
otherwise the data is written directly. Returns the resulting file
contents and the pool. -/
def writeImageFileOptimized (pool : List (List UInt8))
    (data : List UInt8) : List UInt8 × List (List UInt8) :=
  let file : List UInt8 := []
  if 32 * 1024 < data.length then
    let got := bufferPoolGet pool
    let buf := got.1
    let pool1 := got.2
    let bufferedWriter : BytesBuffer := { contents := [] }
    let bufferedWriter := bufferedWriter.write data
    ((bufferedWriter.writeTo file).1, bufferPoolPut pool1 (buf.take 0))
  else
    (file ++ data, pool)

/-- The plain write the optimized path is claimed to be extensionally
equal to: the file contents are exactly the payload. -/
def writeImageFilePlain (data : List UInt8) : List UInt8 := data

/-- Proof-support: recover a natural number from its printed decimal
representation (least significant digit first after reversing). -/
def reprRecover (l : List Char) : Nat :=
  Nat.ofDigits 10 (l.reverse.map undigitChar)

/-! Theorems. -/

theorem digitChar_ne_underscore (d : Nat) : digitChar d ≠ '_' := by
  unfold digitChar
  split_ifs <;> decide

theorem undigitChar_digitChar {d : Nat} (hd : d < 10) :
    undigitChar (digitChar d) = d := by
  interval_cases d <;> decide

theorem natDecimalRepr_ne_underscore (n : Nat) :
    ∀ c ∈ natDecimalRepr n, c ≠ '_' := by
  intro c hc
  unfold natDecimalRepr at hc
  split at hc
  · simp only [List.mem_singleton] at hc
    subst hc; decide
  · simp only [List.mem_reverse, List.mem_map] at hc
    obtain ⟨d, _, rfl⟩ := hc
    exact digitChar_ne_underscore d

theorem reprRecover_natDecimalRepr (n : Nat) :
    reprRecover (natDecimalRepr n) = n := by
  by_cases h : n = 0
  · subst h; simp [natDecimalRepr, reprRecover, undigitChar, Nat.ofDigits]
  · have h1 : natDecimalRepr n = ((Nat.digits 10 n).map digitChar).reverse := by
      simp [natDecimalRepr, h]
    rw [h1]
    unfold reprRecover
    rw [List.reverse_reverse, List.map_map]
    have h2 : (Nat.digits 10 n).map (undigitChar ∘ digitChar)
        = (Nat.digits 10 n).map id := by
      apply List.map_congr_left
      intro d hd
      exact undigitChar_digitChar (Nat.digits_lt_base (by norm_num) hd)
    rw [h2, List.map_id, Nat.ofDigits_digits]

theorem natDecimalRepr_injective : Function.Injective natDecimalRepr := by
  intro n m h
  have h2 := congrArg reprRecover h
  rwa [reprRecover_natDecimalRepr, reprRecover_natDecimalRepr] at h2

theorem append_underscore_inj :
    ∀ (a1 : List Char) {a2 b1 b2 : List Char},
      '_' ∉ a1 → '_' ∉ a2 →
      a1 ++ '_' :: b1 = a2 ++ '_' :: b2 → a1 = a2 ∧ b1 = b2 := by
  intro a1
  induction a1 with
  | nil =>
    intro a2 b1 b2 _ h2 h
    cases a2 with
    | nil => simpa using h
    | cons c t =>
      simp only [List.nil_append, List.cons_append, List.cons.injEq] at h
      exact absurd (h.1 ▸ List.mem_cons_self c t) h2
  | cons c t ih =>
    intro a2 b1 b2 h1 h2 h
    cases a2 with
    | nil =>
      simp only [List.nil_append, List.cons_append, List.cons.injEq] at h
      exact absurd (by rw [h.1]; exact List.mem_cons_self '_' t) h1
    | cons c2 t2 =>
      simp only [List.cons_append, List.cons.injEq] at h
      obtain ⟨hc, ht⟩ := h
      have h1t : '_' ∉ t := fun hm => h1 (List.mem_cons_of_mem _ hm)
      have h2t : '_' ∉ t2 := fun hm => h2 (List.mem_cons_of_mem _ hm)
      obtain ⟨e1, e2⟩ := ih h1t h2t ht
      exact ⟨by rw [hc, e1], e2⟩

theorem data_mk (l : List Char) : (String.mk l).data = l := rfl

theorem data_underscore : ("_" : String).data = ['_'] := rfl

theorem tempFileName_inj (t1 t2 : Nat) (f1 f2 : String) :
    tempFileName t1 f1 = tempFileName t2 f2 ↔ t1 = t2 ∧ f1 = f2 := by
  constructor
  · intro h
    have hd := congrArg String.data h
    simp only [tempFileName, String.data_append, data_mk, data_underscore,
      List.append_assoc, List.singleton_append] at hd
    have h2 := List.append_cancel_left hd
    obtain ⟨e1, e2⟩ := append_underscore_inj (natDecimalRepr t1)
      (fun hm => natDecimalRepr_ne_underscore t1 '_' hm rfl)
      (fun hm => natDecimalRepr_ne_underscore t2 '_' hm rfl) h2
    exact ⟨natDecimalRepr_injective e1, String.ext e2⟩
  · rintro ⟨rfl, rfl⟩
    rfl

/-- C10: writeImageFileOptimized writes file contents equal to exactly
the payload in both of its branches: the optimized large-payload path
through the bytes.Buffer (with the pooled buffer acquired but unused
for the copy) is extensionally equal to the plain small-payload
write. -/
theorem claim_C10_write_optimized_equals_plain
    (pool : List (List UInt8)) (data : List UInt8) :
    (writeImageFileOptimized pool data).1 = writeImageFilePlain data := by
  unfold writeImageFileOptimized writeImageFilePlain
  split_ifs <;> simp [BytesBuffer.write, BytesBuffer.writeTo]

/-- C3: for a successful engine call returning text t, the Result has
no error and its text equals t with surrounding whitespace trimmed,
except that an empty trimmed text is replaced by the fixed sentinel;
a successful Result never carries an empty string. -/
theorem claim_C3_success_text_normalized (t : String) :
    (engineCallResponse t none).Err = none ∧
    (engineCallResponse t none).Text =
      (if goTrimSpace t = "" then noTextSentinel else goTrimSpace t) ∧
    (engineCallResponse t none).Text ≠ "" := by
  have ht : (engineCallResponse t none).Text =
      (if goTrimSpace t = "" then noTextSentinel else goTrimSpace t) := rfl
  refine ⟨rfl, ht, ?_⟩
  rw [ht]
  by_cases h : goTrimSpace t = ""
  · rw [if_pos h]; decide
  · rw [if_neg h]; exact h

/-- C2: when the engine call exceeds the 30-second deadline,
processOCRRequest returns the fixed timeout response regardless of the
call's eventual outcome; the goroutine's eventual response still goes
into the fresh capacity-1 result channel without blocking (the call is
not cancelled, its result merely sits unread); and the dispatcher's
35-second result wait is strictly longer than the 30-second engine
deadline, so the worker's own timeout response normally wins. -/
theorem claim_C2_engine_timeout (d : Nat) (text : String) (err : Option String)
    (hd : engineCallTimeoutSecs < d) :
    processOCRSelect d text err
        = { Text := "", Err := some "OCR processing timeout" } ∧
    newResultCh.trySend (engineCallResponse text err)
        = some { capacity := 1, buffer := [engineCallResponse text err] } ∧
    engineCallTimeoutSecs < resultTimeoutSecs := by
  refine ⟨?_, rfl, by decide⟩
  unfold processOCRSelect
  rw [if_neg (Nat.not_le.mpr hd)]

/-- Witness for C2 at a concrete engine call lasting 31 seconds. -/
theorem claim_C2_engine_timeout_witness :
    engineCallTimeoutSecs < 31 ∧
    (processOCRSelect 31 "hello" none
        = { Text := "", Err := some "OCR processing timeout" } ∧
      newResultCh.trySend (engineCallResponse "hello" none)
        = some { capacity := 1, buffer := [engineCallResponse "hello" none] } ∧
      engineCallTimeoutSecs < resultTimeoutSecs) :=
  ⟨by decide, claim_C2_engine_timeout 31 "hello" none (by decide)⟩

/-- C4: after a successful temp write, processOCRRequest deletes the
temp artifact exactly once on every exit path (success, engine error,
engine timeout), and a deletion failure never changes the returned
response. -/
theorem claim_C4_cleanup_exactly_once (now : Nat) (filename : String)
    (removeOk : Bool) (d : Nat) (text : String) (err : Option String) :
    ((processOCRRequest true now filename true removeOk d text err).2.countP
        (isRemoveOf (tempFileName now filename)) = 1) ∧
    (processOCRRequest true now filename true removeOk d text err).1
      = (processOCRRequest true now filename true true d text err).1 := by
  constructor
  · simp [processOCRRequest, List.countP_cons, List.countP_nil, isRemoveOf]
  · rfl

/-- C9: the reply channel is fresh with capacity exactly 1, the worker
performs exactly one send of the job's Result into it, and that send
completes without blocking even when the dispatcher has abandoned the
channel and never receives. -/
theorem claim_C9_reply_send_never_blocks (clientInit : Bool) (now : Nat)
    (filename : String) (writeOk removeOk : Bool) (d : Nat) (text : String)
    (err : Option String) :
    newResponseCh.capacity = 1 ∧ newResponseCh.buffer = [] ∧
    (ocrWorkerJobSends clientInit now filename writeOk removeOk d text err).length
        = 1 ∧
    newResponseCh.sendAll
        (ocrWorkerJobSends clientInit now filename writeOk removeOk d text err)
      = some ⟨1, ocrWorkerJobSends clientInit now filename writeOk removeOk
          d text err⟩ := by
  refine ⟨rfl, rfl, rfl, ?_⟩
  rfl

/-- C5: with a valid request and the queue staying full for the whole
5-second admission window, the handler answers service-busy with HTTP
503, the job never enters the queue, and the admission wait is bounded
by the 5-second constant. -/
theorem claim_C5_admission_timeout (filename : String)
    (workerResult : Option OCRResponse)
    (hv : isValidImageType filename = true) :
    uploadHandler "POST" true true true true filename true false workerResult
      = (.serviceBusy, [.responseChCreated]) ∧
    DispatchEvent.jobEnqueued ∉
      (uploadHandler "POST" true true true true filename true false
        workerResult).2 ∧
    httpStatusOf .serviceBusy = 503 ∧ admissionTimeoutSecs = 5 := by
  have h : uploadHandler "POST" true true true true filename true false
      workerResult = (.serviceBusy, [.responseChCreated]) := by
    unfold uploadHandler
    rw [if_neg (by decide), if_neg (by simp), if_neg (by decide),
      if_neg (by decide), if_neg (by simp [hv]), if_neg (by decide),
      if_pos rfl]
  refine ⟨h, ?_, rfl, rfl⟩
  rw [h]
  decide

/-- Witness for C5 at a concrete valid upload. -/
theorem claim_C5_admission_timeout_witness :
    isValidImageType "photo.png" = true ∧
    (uploadHandler "POST" true true true true "photo.png" true false none
        = (.serviceBusy, [.responseChCreated]) ∧
      DispatchEvent.jobEnqueued ∉
        (uploadHandler "POST" true true true true "photo.png" true false
          none).2 ∧
      httpStatusOf .serviceBusy = 503 ∧ admissionTimeoutSecs = 5) :=
  ⟨by decide, claim_C5_admission_timeout "photo.png" none (by decide)⟩

/-- C6: when the engine is unavailable (tesseract not found or client
nil), the handler returns the fixed not-configured outcome with HTTP
503 synchronously, before any reply channel is created and before the
queue is touched (the event trace is empty). -/
theorem claim_C6_engine_unavailable (tf ci parseOk fileOk : Bool)
    (filename : String) (readOk qa : Bool) (wr : Option OCRResponse)
    (h : tf = false ∨ ci = false) :
    uploadHandler "POST" tf ci parseOk fileOk filename readOk qa wr
      = (.engineNotConfigured, []) ∧
    httpStatusOf .engineNotConfigured = 503 := by
  refine ⟨?_, rfl⟩
  unfold uploadHandler
  rw [if_neg (by decide), if_pos h]

/-- Witness for C6 with tesseract not found. -/
theorem claim_C6_engine_unavailable_witness :
    ((false = false ∨ true = false) ∧
      (uploadHandler "POST" false true true true "photo.png" true true none
          = (.engineNotConfigured, []) ∧
        httpStatusOf .engineNotConfigured = 503)) :=
  ⟨Or.inl rfl,
    claim_C6_engine_unavailable false true true true "photo.png" true true
      none (Or.inl rfl)⟩

/-- C7: isValidImageType accepts exactly the filenames whose
lowercased extension is one of the six accepted ones, and an upload
failing that gate is rejected with HTTP 400 with no reply channel
created and no job enqueued. -/
theorem claim_C7_extension_gate (filename : String) (qa : Bool)
    (wr : Option OCRResponse) :
    (isValidImageType filename = true ↔
      goToLower (goFilepathExt filename) ∈ validExts) ∧
    (isValidImageType filename = false →
      uploadHandler "POST" true true true true filename true qa wr
          = (.invalidImageType, []) ∧
      httpStatusOf .invalidImageType = 400) := by
  constructor
  · show (validExts.any fun v => goToLower (goFilepathExt filename) == v)
        = true ↔ _
    rw [List.any_eq_true]
    constructor
    · rintro ⟨x, hx, he⟩
      rw [beq_iff_eq] at he
      rw [he]
      exact hx
    · intro hm
      exact ⟨goToLower (goFilepathExt filename), hm, by rw [beq_iff_eq]⟩
  · intro hv
    refine ⟨?_, rfl⟩
    unfold uploadHandler
    rw [if_neg (by decide), if_neg (by simp), if_neg (by decide),
      if_neg (by decide), if_pos hv]

/-- Witness for C7 at a concrete rejected filename. -/
theorem claim_C7_extension_gate_witness :
    isValidImageType "notes.txt" = false ∧
    (isValidImageType "notes.txt" = true ↔
      goToLower (goFilepathExt "notes.txt") ∈ validExts) ∧
    (uploadHandler "POST" true true true true "notes.txt" true true none
        = (.invalidImageType, []) ∧
      httpStatusOf .invalidImageType = 400) :=
  ⟨by decide, (claim_C7_extension_gate "notes.txt" true none).1,
    (claim_C7_extension_gate "notes.txt" true none).2 (by decide)⟩

/-- C1: the claimed engine-call mutual exclusion fails on the code:
ocrMutex is only ever read-locked (a shared lock, and no writer exists
anywhere in the program), so a state with two workers simultaneously
inside ocrClient.TextFromImageFile is reachable, and the number of
in-flight engine calls is not always at most one. -/
theorem claim_C1_rlock_no_mutual_exclusion :
    ¬ (∀ s : EngineSyncState, SyncReachable s → inEngineCallCount s ≤ 1) := by
  intro hAll
  have s1 : SyncStep initialSync
      { mutex := { readers := 1, writerHeld := false },
        w1 := .inEngineCall, w2 := .beforeLock } :=
    SyncStep.rlock1 { readers := 0, writerHeld := false } .beforeLock rfl
  have s2 : SyncStep
      { mutex := { readers := 1, writerHeld := false },
        w1 := .inEngineCall, w2 := .beforeLock }
      { mutex := { readers := 2, writerHeld := false },
        w1 := .inEngineCall, w2 := .inEngineCall } :=
    SyncStep.rlock2 { readers := 1, writerHeld := false } .inEngineCall rfl
  have hreach : SyncReachable
      { mutex := { readers := 2, writerHeld := false },
        w1 := .inEngineCall, w2 := .inEngineCall } :=
    Relation.ReflTransGen.tail
      (Relation.ReflTransGen.tail Relation.ReflTransGen.refl s1) s2
  have h2 := hAll _ hreach
  simp [inEngineCallCount] at h2

/-- C8 fails as stated: two distinct concurrently processing jobs that
observe the same UnixNano timestamp and carry the same filename
receive identical temp artifact names. -/
theorem claim_C8_counterexample : ¬ concTempNamesNeverCollide := by
  intro h
  exact h
    { jobId := 0, nowUnixNano := 1700000000000000000, filename := "scan.png" }
    { jobId := 1, nowUnixNano := 1700000000000000000, filename := "scan.png" }
    (by decide) rfl

/-- C8 amended: temp artifact names collide exactly when both the
observed timestamp and the original filename coincide; any two jobs
differing in observed UnixNano value or in original filename receive
distinct temp artifact names. -/
theorem claim_C8_amended_names_injective (t1 t2 : Nat) (f1 f2 : String) :
    tempFileName t1 f1 = tempFileName t2 f2 ↔ t1 = t2 ∧ f1 = f2 :=
  tempFileName_inj t1 t2 f1 f2

end GoOCR
